import Mathlib

/-!
Shallow embedding of the field-mapping engine in src/basic_info.py
(class EnhancedDataMapper).  Scalar cell values of the pandas tables are
modelled by the type Val: Val.none models a missing cell (pandas NaN and
also the Python value None, which the engine treats interchangeably as
the null outcome), Val.str models a string cell and Val.nat a numeric
cell.  A pandas row is an ordered association list from column name to
cell value; a DataFrame carries its column list (used only where the
source subscripts a column, which raises KeyError when absent) and its
rows, each row carrying one entry per column, Val.none standing for NaN.
Floating point cells are outside the model.  Config rows of the mapping
sheet are modelled as records whose text fields are strings, matching
the cells the source reads; a numeric cell in the target column, which
would crash the source at the strip() call, is outside the model.
-/

inductive Val where
  | none
  | str (s : String)
  | nat (n : Nat)
  deriving DecidableEq

/-- Python str() of a cell value: str of NaN is the string nan, numbers
render in decimal.  This is also the elementwise effect of the pandas
astype(str) conversion the source applies to id columns. -/
def pyStr : Val → String
  | Val.none => "nan"
  | Val.str s => s
  | Val.nat n => toString n

/-- Python truthiness of a cell value: empty string and zero are falsy;
NaN is truthy in Python. -/
def valTruthy : Val → Bool
  | Val.none => true
  | Val.str s => s ≠ ""
  | Val.nat n => n ≠ 0

abbrev Row := List (String × Val)

/-- First-match association lookup, the model of Python dict and pandas
Series indexing by label. -/
def alookup {β : Type} (k : String) : List (String × β) → Option β
  | [] => Option.none
  | (k', v) :: t => if k' = k then some v else alookup k t

/-- Series.get with a default: the cell when the label is present
(possibly Val.none for NaN), the default otherwise. -/
def rowGetD (r : Row) (c : String) (d : Val) : Val :=
  (alookup c r).getD d

structure DataFrame where
  cols : List String
  rows : List Row
  deriving DecidableEq

/-- Does the list start with the pattern. -/
def listStartsWith : List Char → List Char → Bool
  | _, [] => true
  | [], _ :: _ => false
  | a :: as, b :: bs => (a == b) && listStartsWith as bs

/-- Does the pattern occur as a contiguous run of the list. -/
def listHasSub (pat : List Char) : List Char → Bool
  | [] => listStartsWith [] pat
  | a :: t => listStartsWith (a :: t) pat || listHasSub pat t

/-- Python substring containment, pat in s. -/
def strContainsSub (s pat : String) : Bool :=
  listHasSub pat.toList s.toList

/-- Python str.lower restricted to the ASCII range of the source
strings. -/
def strLower (s : String) : String :=
  String.mk (s.toList.map Char.toLower)

/-- ASCII whitespace, the characters Python strip removes here. -/
def isSpaceChar (c : Char) : Bool :=
  c == ' ' || c == '\t' || c == '\n' || c == '\r' || c == '\x0b' || c == '\x0c'

/-- Python str.strip with no argument: drop whitespace from both
ends. -/
def strStrip (s : String) : String :=
  String.mk (((s.toList.dropWhile isSpaceChar).reverse.dropWhile isSpaceChar).reverse)

/-- Helper for pandas unique: keep elements not yet seen, in first-seen
order. -/
def pdUniqueAux (seen : List String) : List String → List String
  | [] => []
  | x :: t => if x ∈ seen then pdUniqueAux seen t else x :: pdUniqueAux (x :: seen) t

/-- pandas Series.unique after astype(str): distinct values in order of
first appearance. -/
def pdUnique (l : List String) : List String :=
  pdUniqueAux [] l

/-- The gender_map dict of _apply_transformations. -/
def gender_map : List (String × String) :=
  [("1", "Male"), ("2", "Female"), ("M", "Male"), ("F", "Female")]

/-- The marital_map dict of _apply_transformations. -/
def marital_map : List (String × String) :=
  [("0", "Single"), ("1", "Married"), ("2", "Divorced"),
   ("3", "Widowed"), ("4", "Separated")]

/-- EnhancedDataMapper._format_date: None for a null value; otherwise
the value is first rendered by str(); an 8 character all-digit string
form is sliced into YYYY-MM-DD; any other value is returned as its
string form.  The try block of the source cannot raise, so it is
modelled by the plain slice. -/
def format_date (v : Val) : Val :=
  match v with
  | Val.none => Val.none
  | _ =>
    let s := pyStr v
    if s.length = 8 ∧ s.toList.all Char.isDigit = true then
      Val.str (String.mk (s.toList.take 4 ++ '-' ::
        ((s.toList.drop 4).take 2 ++ '-' :: s.toList.drop 6)))
    else Val.str s

/-- EnhancedDataMapper._apply_transformations.  The branch on
self.lookup_tables in the source has an empty body (only a comment) and
falls through to return value, so it is omitted; the login username
branch consults PA0105_Communication, hence the source_data argument. -/
def apply_transformations (value : Val) (field_name : String) (notes : String)
    (person_row : Row) (source_data : List (String × DataFrame)) : Val :=
  if value = Val.none ∨ value = Val.str "" then Val.none
  else if strContainsSub (strLower field_name) "gender" || strContainsSub field_name "GESCH" then
    match alookup (pyStr value) gender_map with
    | some g => Val.str g
    | Option.none => value
  else if strContainsSub (strLower notes) "date" || strContainsSub field_name "GBDAT"
      || strContainsSub field_name "BEGDA" then
    format_date value
  else if strContainsSub (strLower notes) "marital" || strContainsSub field_name "FAMST" then
    match alookup (pyStr value) marital_map with
    | some m => Val.str m
    | Option.none => value
  else if strContainsSub notes "concatenate VORNA + NACHN" then
    Val.str (strStrip (pyStr (rowGetD person_row "VORNA" (Val.str "")) ++ " "
      ++ pyStr (rowGetD person_row "NACHN" (Val.str ""))))
  else if strContainsSub (strLower notes) "login username" then
    match alookup "PA0105_Communication" source_data with
    | some comm_df =>
      match comm_df.rows.filter (fun r =>
          decide (pyStr (rowGetD r "PERNR" Val.none)
              = pyStr (rowGetD person_row "PERNR" (Val.str ""))
            ∧ rowGetD r "COMM_TYPE" Val.none = Val.str "LOGIN")) with
      | login :: _ => rowGetD login "USRID" value
      | [] => value
    | Option.none => value
  else value

/-- The filter df[df[PERNR].astype(str) == str(person_id)]. -/
def pernrFilter (df : DataFrame) (person_id : String) : List Row :=
  df.rows.filter (fun r => decide (pyStr (rowGetD r "PERNR" Val.none) = person_id))

/-- EnhancedDataMapper._get_pa0002_value. -/
def get_pa0002_value (person_id : String) (technical_field : String) (notes : String)
    (default_value : Val) (source_data : List (String × DataFrame)) : Val :=
  match alookup "PA0002_Personal Data" source_data with
  | Option.none => default_value
  | some df =>
    match pernrFilter df person_id with
    | [] => default_value
    | person_row :: _ =>
      apply_transformations (rowGetD person_row technical_field default_value)
        technical_field notes person_row source_data

/-- The first condition of _get_pa0105_value selecting the email rows:
the keyword email in the lower-cased notes, or the exact substring
SUBTY=0010 in the raw notes. -/
def emailNotes (notes : String) : Bool :=
  strContainsSub (strLower notes) "email" || strContainsSub notes "SUBTY=0010"

/-- The second condition of _get_pa0105_value selecting the phone rows. -/
def phoneNotes (notes : String) : Bool :=
  strContainsSub (strLower notes) "phone" || strContainsSub notes "SUBTY=0020"

/-- The row filter of the email branch: COMM_TYPE equal to EMAIL or
SUBTY equal to the number 10. -/
def emailRowsOf (person_data : List Row) : List Row :=
  person_data.filter (fun r =>
    decide (rowGetD r "COMM_TYPE" Val.none = Val.str "EMAIL"
      ∨ rowGetD r "SUBTY" Val.none = Val.nat 10))

/-- The row filter of the phone branch: COMM_TYPE equal to PHONE or
SUBTY equal to the number 20. -/
def phoneRowsOf (person_data : List Row) : List Row :=
  person_data.filter (fun r =>
    decide (rowGetD r "COMM_TYPE" Val.none = Val.str "PHONE"
      ∨ rowGetD r "SUBTY" Val.none = Val.nat 20))

/-- EnhancedDataMapper._get_pa0105_value.  When the email branch is
taken and its filter is empty the source falls through past the elif to
the final return of the default, which the match models. -/
def get_pa0105_value (person_id : String) (_technical_field : String) (notes : String)
    (default_value : Val) (source_data : List (String × DataFrame)) : Val :=
  match alookup "PA0105_Communication" source_data with
  | Option.none => default_value
  | some df =>
    match pernrFilter df person_id with
    | [] => default_value
    | pr :: prs =>
      if emailNotes notes then
        match emailRowsOf (pr :: prs) with
        | e :: _ => rowGetD e "USRID_LONG" default_value
        | [] => default_value
      else if phoneNotes notes then
        match phoneRowsOf (pr :: prs) with
        | p :: _ => rowGetD p "USRID_LONG" default_value
        | [] => default_value
      else default_value

/-- EnhancedDataMapper._get_pa0006_value. -/
def get_pa0006_value (person_id : String) (technical_field : String) (_notes : String)
    (default_value : Val) (source_data : List (String × DataFrame)) : Val :=
  match alookup "PA0006_Home_Address" source_data with
  | Option.none => default_value
  | some df =>
    match pernrFilter df person_id with
    | [] => default_value
    | pr :: prs =>
      match (pr :: prs).filter (fun r => decide (rowGetD r "SUBTY" Val.none = Val.nat 1)) with
      | h :: _ => rowGetD h technical_field default_value
      | [] => default_value

/-- EnhancedDataMapper._get_pa0001_value: returns the default. -/
def get_pa0001_value (default_value : Val) : Val := default_value

/-- EnhancedDataMapper._get_pa0000_value: returns the default. -/
def get_pa0000_value (default_value : Val) : Val := default_value

/-- EnhancedDataMapper._get_custom_value: both branches of the source
return the default. -/
def get_custom_value (default_value : Val) : Val := default_value

/-- One compiled entry of self.mapping_config. -/
structure Config where
  target_name : String
  source_table : String
  source_field : String
  technical_field : String
  notes : String
  default_value : Val
  deriving DecidableEq

/-- EnhancedDataMapper._get_value_from_source: the source table name of
the rule is compared for exact equality against six fixed constants;
when none matches, the default is returned if truthy, else None. -/
def get_value_from_source (person_id : String) (config : Config)
    (source_data : List (String × DataFrame)) : Val :=
  if config.source_table = "PA0002" then
    get_pa0002_value person_id config.technical_field config.notes config.default_value source_data
  else if config.source_table = "PA0105" then
    get_pa0105_value person_id config.technical_field config.notes config.default_value source_data
  else if config.source_table = "PA0006" then
    get_pa0006_value person_id config.technical_field config.notes config.default_value source_data
  else if config.source_table = "PA0001" then
    get_pa0001_value config.default_value
  else if config.source_table = "PA0000" then
    get_pa0000_value config.default_value
  else if config.source_table = "Custom" then
    get_custom_value config.default_value
  else if valTruthy config.default_value then config.default_value
  else Val.none

/-- One row of the mapping configuration sheet, with the cells the
source reads via row.get; the target cell may be null. -/
structure MappingRow where
  target : Option String
  target_name : String
  source_table : String
  source_field : String
  technical_field : String
  notes : String
  default_value : Val
  deriving DecidableEq

/-- The guard of load_mapping_config: pd.notna on the target cell and
truthiness of target.strip(); the unstripped target is used as the key. -/
def validTarget (r : MappingRow) : Option String :=
  match r.target with
  | Option.none => Option.none
  | some s => if strStrip s = "" then Option.none else some s

/-- The dict value stored by load_mapping_config for one row. -/
def compileRow (r : MappingRow) : Config :=
  { target_name := r.target_name, source_table := r.source_table,
    source_field := r.source_field, technical_field := r.technical_field,
    notes := r.notes, default_value := r.default_value }

/-- Python dict assignment d[k] = v on an association list: an existing
key keeps its position and receives the new value, a new key is
appended at the end. -/
def dictInsert {β : Type} : List (String × β) → String → β → List (String × β)
  | [], k, v => [(k, v)]
  | (k', v') :: t, k, v => if k' = k then (k', v) :: t else (k', v') :: dictInsert t k v

/-- One iteration of the loop of load_mapping_config. -/
def insertCfg (acc : List (String × Config)) (r : MappingRow) : List (String × Config) :=
  match validTarget r with
  | Option.none => acc
  | some t => dictInsert acc t (compileRow r)

/-- EnhancedDataMapper.load_mapping_config: builds the mapping dict row
by row. -/
def load_mapping_config (rows : List MappingRow) : List (String × Config) :=
  rows.foldl insertCfg []

/-- The errors transform_data can raise: valueError models the two
deliberate raise ValueError statements, keyError models the pandas
KeyError escaping from the subscript main_df[PERNR] when the column is
absent. -/
inductive MapError where
  | valueError (msg : String)
  | keyError (key : String)
  deriving DecidableEq

/-- The relevant mutable state of EnhancedDataMapper.  The unloaded
None states and the empty dict are modelled alike by the empty list,
matching Python truthiness.  lookup_tables is omitted: the only branch
consulting it has an empty body in the source. -/
structure EnhancedDataMapper where
  mapping_config : List (String × Config)
  source_data : List (String × DataFrame)
  deriving DecidableEq

/-- The id list main_df[PERNR].astype(str).unique() of transform_data:
string forms of the PERNR column in first-seen order, duplicates
collapsed; a NaN cell contributes the string nan. -/
def personIds (df : DataFrame) : List String :=
  pdUnique (df.rows.map (fun r => pyStr (rowGetD r "PERNR" Val.none)))

/-- EnhancedDataMapper.transform_data.  An error result models an
exception escaping before any output row exists. -/
def transform_data (m : EnhancedDataMapper) :
    Except MapError (List (List (String × Val))) :=
  if m.mapping_config = [] ∨ m.source_data = [] then
    Except.error (MapError.valueError
      "Mapping configuration and source data must be loaded first")
  else
    match alookup "PA0002_Personal Data" m.source_data with
    | Option.none => Except.error (MapError.valueError
        "PA0002_Personal Data is required as the main data source")
    | some main_df =>
      if "PERNR" ∈ main_df.cols then
        Except.ok ((personIds main_df).map (fun person_id =>
          m.mapping_config.map (fun p =>
            (p.1, get_value_from_source person_id p.2 m.source_data))))
      else Except.error (MapError.keyError "PERNR")

/-- The raw cell value each resolution path of the source extracts
before any transformation: for PA0002 the value handed to
_apply_transformations, for PA0105 and PA0006 the returned cell itself
(the source applies no transformation there), for the remaining paths
the default the source returns.  Used to state claim C1. -/
def resolveRaw (person_id : String) (config : Config)
    (source_data : List (String × DataFrame)) : Val :=
  if config.source_table = "PA0002" then
    match alookup "PA0002_Personal Data" source_data with
    | Option.none => config.default_value
    | some df =>
      match pernrFilter df person_id with
      | [] => config.default_value
      | person_row :: _ => rowGetD person_row config.technical_field config.default_value
  else if config.source_table = "PA0105" then
    get_pa0105_value person_id config.technical_field config.notes config.default_value source_data
  else if config.source_table = "PA0006" then
    get_pa0006_value person_id config.technical_field config.notes config.default_value source_data
  else if config.source_table = "PA0001" ∨ config.source_table = "PA0000"
      ∨ config.source_table = "Custom" then
    config.default_value
  else if valTruthy config.default_value then config.default_value
  else Val.none

/-- The PA0002 row of an entity, first match in input order, empty when
absent.  Used to state claim C1. -/
def primary_row (person_id : String) (source_data : List (String × DataFrame)) : Row :=
  match alookup "PA0002_Personal Data" source_data with
  | Option.none => []
  | some df =>
    match pernrFilter df person_id with
    | [] => []
    | r :: _ => r

/-- Stated from the spec wording for claim C4: exact or case-insensitive
bidirectional substring containment between a rule reference and a
loaded table name. -/
def specTableMatch (ref tname : String) : Bool :=
  strLower ref = strLower tname
    || strContainsSub (strLower tname) (strLower ref)
    || strContainsSub (strLower ref) (strLower tname)

/-- Strip leading zeros from a digit string, preserving a literal 0. -/
def stripZeros (s : String) : String :=
  match s.toList.dropWhile (fun c => c == '0') with
  | [] => "0"
  | t => String.mk t

/-- Scan lower-cased text for subty followed by an optional separator
run and digits, returning the digit run of the first match that has
digits. -/
def scanSubty : List Char → Option (List Char)
  | [] => Option.none
  | c :: t =>
    if listStartsWith (c :: t) "subty".toList then
      match (((c :: t).drop 5).dropWhile
          (fun x => x == ' ' || x == '=' || x == ':' || x == '-')).takeWhile Char.isDigit with
      | [] => scanSubty t
      | d => some d
    else scanSubty t

/-- Stated from the spec wording for claim C5: a case-insensitive regex
match of SUBTY, optional separator and digits, normalized by stripping
leading zeros; keyword fallback EMAIL to 10 and PHONE to 20. -/
def specSubtypeOfNotes (notes : String) : Option String :=
  match scanSubty (strLower notes).toList with
  | some ds => some (stripZeros (String.mk ds))
  | Option.none =>
    if strContainsSub (strLower notes) "email" then some "10"
    else if strContainsSub (strLower notes) "phone" then some "20"
    else Option.none

/-- Stated from the spec wording for claim C2: the ordered set of
distinct, non-null entity ids of the primary id column, first-seen
order, duplicates collapsed, null values dropped. -/
def specEntityIds (df : DataFrame) : List String :=
  pdUnique (df.rows.filterMap (fun r =>
    match rowGetD r "PERNR" Val.none with
    | Val.none => Option.none
    | v => some (pyStr v)))

/-- Stated from the spec wording for claim C3: a lookup without a
subtype on the subtype-keyed communication table returns the first row
for the entity in input order, and the rule extracts the communication
field of that row. -/
def specFirstCommValue (person_id : String) (default_value : Val)
    (source_data : List (String × DataFrame)) : Val :=
  match alookup "PA0105_Communication" source_data with
  | Option.none => default_value
  | some df =>
    match pernrFilter df person_id with
    | [] => default_value
    | r :: _ => rowGetD r "USRID_LONG" default_value

/-- The compiled form of the last mapping row whose valid target is the
given field: later rows take precedence. -/
def lastCompiled (tf : String) : List MappingRow → Option Config
  | [] => Option.none
  | r :: rest =>
    match lastCompiled tf rest with
    | some c => some c
    | Option.none => if validTarget r = some tf then some (compileRow r) else Option.none

/-- A primary table row used by the concrete scenarios. -/
def rowA : Row :=
  [("PERNR", Val.nat 1001), ("VORNA", Val.str "Jane"), ("NACHN", Val.str "Doe"),
   ("GESCH", Val.str "1")]

/-- A loaded PA0002 table with one employee. -/
def dfPa0002A : DataFrame :=
  ⟨["PERNR", "VORNA", "NACHN", "GESCH"], [rowA]⟩

/-- A phone communication row for employee 1001. -/
def rowPhoneA : Row :=
  [("PERNR", Val.nat 1001), ("SUBTY", Val.nat 20), ("COMM_TYPE", Val.str "PHONE"),
   ("USRID_LONG", Val.str "555")]

/-- An email communication row for employee 1001. -/
def rowEmailA : Row :=
  [("PERNR", Val.nat 1001), ("SUBTY", Val.nat 10), ("COMM_TYPE", Val.str "EMAIL"),
   ("USRID_LONG", Val.str "a@b")]

/-- A loaded PA0105 table for employee 1001: a phone row first, then an
email row. -/
def dfPa0105A : DataFrame :=
  ⟨["PERNR", "SUBTY", "COMM_TYPE", "USRID_LONG"], [rowPhoneA, rowEmailA]⟩

/-- A rule naming a source table outside the six fixed constants. -/
def cfgC4w : Config :=
  ⟨"", "PA9999", "", "F", "", Val.str ""⟩

/-- Source data with the PA0002 and PA0105 tables above. -/
def sdA : List (String × DataFrame) :=
  [("PA0002_Personal Data", dfPa0002A), ("PA0105_Communication", dfPa0105A)]

/-- A gender rule reading GESCH from PA0002. -/
def cfgGender : Config :=
  ⟨"", "PA0002", "", "GESCH", "", Val.str ""⟩

/-- A PA0105 table whose email row carries an empty communication
value. -/
def dfPa0105Empty : DataFrame :=
  ⟨["PERNR", "SUBTY", "COMM_TYPE", "USRID_LONG"],
   [[("PERNR", Val.nat 1001), ("SUBTY", Val.nat 10), ("COMM_TYPE", Val.str "EMAIL"),
     ("USRID_LONG", Val.str "")]]⟩

/-- Source data pairing the primary table with the empty-valued email
row. -/
def sdC1 : List (String × DataFrame) :=
  [("PA0002_Personal Data", dfPa0002A), ("PA0105_Communication", dfPa0105Empty)]

/-- An email rule on PA0105 with default D. -/
def cfgC1 : Config :=
  ⟨"", "PA0105", "", "USRID_LONG", "email", Val.str "D"⟩

/-- A loaded mapper with the single email rule. -/
def mapperC1 : EnhancedDataMapper :=
  ⟨[("email", cfgC1)], sdC1⟩

/-- A primary table whose id column holds 1001 and a null. -/
def dfC2 : DataFrame :=
  ⟨["PERNR"], [[("PERNR", Val.nat 1001)], [("PERNR", Val.none)]]⟩

/-- A rule on PA0001, which always resolves to its default D. -/
def cfgD : Config :=
  ⟨"", "PA0001", "", "", "", Val.str "D"⟩

/-- A loaded mapper whose primary table has a null id cell. -/
def mapperC2 : EnhancedDataMapper :=
  ⟨[("f", cfgD)], [("PA0002_Personal Data", dfC2)]⟩

/-- A rule whose source table reference is lower-case pa0002. -/
def cfgC4 : Config :=
  ⟨"", "pa0002", "", "VORNA", "", Val.str "D"⟩

/-- A primary table lacking the PERNR column. -/
def dfNoPernr : DataFrame :=
  ⟨["EmpID"], [[("EmpID", Val.nat 1)]]⟩

/-- A loaded mapper whose primary table lacks the PERNR column. -/
def mapperC10 : EnhancedDataMapper :=
  ⟨[("f", cfgD)], [("PA0002_Personal Data", dfNoPernr)]⟩

/-- A loaded mapper with source data but no primary table at all. -/
def mapperC10b : EnhancedDataMapper :=
  ⟨[("f", cfgD)], [("Other", dfNoPernr)]⟩

lemma mem_pdUniqueAux (x : String) :
    ∀ (l seen : List String), x ∈ pdUniqueAux seen l ↔ x ∈ l ∧ x ∉ seen := by
  intro l
  induction l with
  | nil => intro seen; simp [pdUniqueAux]
  | cons a t ih =>
    intro seen
    by_cases h : a ∈ seen
    · rw [pdUniqueAux, if_pos h, ih]
      constructor
      · rintro ⟨hx, hs⟩; exact ⟨List.mem_cons_of_mem a hx, hs⟩
      · rintro ⟨hx, hs⟩
        rcases List.mem_cons.mp hx with rfl | hx2
        · exact absurd h hs
        · exact ⟨hx2, hs⟩
    · rw [pdUniqueAux, if_neg h]
      constructor
      · intro hx
        rcases List.mem_cons.mp hx with rfl | hx2
        · exact ⟨List.mem_cons_self x t, h⟩
        · obtain ⟨ht, hs⟩ := (ih (a :: seen)).mp hx2
          exact ⟨List.mem_cons_of_mem a ht, fun hc => hs (List.mem_cons_of_mem a hc)⟩
      · rintro ⟨hx, hs⟩
        rcases List.mem_cons.mp hx with rfl | hx2
        · exact List.mem_cons_self x _
        · by_cases hxa : x = a
          · exact hxa ▸ List.mem_cons_self a _
          · refine List.mem_cons_of_mem a ((ih (a :: seen)).mpr ⟨hx2, ?_⟩)
            intro hc
            rcases List.mem_cons.mp hc with h1 | h1
            · exact hxa h1
            · exact hs h1

lemma pdUniqueAux_nodup : ∀ (l seen : List String), (pdUniqueAux seen l).Nodup := by
  intro l
  induction l with
  | nil => intro seen; simp [pdUniqueAux]
  | cons a t ih =>
    intro seen
    by_cases h : a ∈ seen
    · rw [pdUniqueAux, if_pos h]; exact ih seen
    · rw [pdUniqueAux, if_neg h]
      refine List.nodup_cons.mpr ⟨fun hmem => ?_, ih (a :: seen)⟩
      exact ((mem_pdUniqueAux a t (a :: seen)).mp hmem).2 (List.mem_cons_self a seen)

lemma pdUniqueAux_sublist : ∀ (l seen : List String), List.Sublist (pdUniqueAux seen l) l := by
  intro l
  induction l with
  | nil => intro seen; exact List.nil_sublist []
  | cons a t ih =>
    intro seen
    by_cases h : a ∈ seen
    · rw [pdUniqueAux, if_pos h]; exact List.Sublist.cons a (ih seen)
    · rw [pdUniqueAux, if_neg h]; exact List.Sublist.cons₂ a (ih (a :: seen))

lemma pdUniqueAux_congr :
    ∀ (l s₁ s₂ : List String), (∀ x, x ∈ s₁ ↔ x ∈ s₂) →
      pdUniqueAux s₁ l = pdUniqueAux s₂ l := by
  intro l
  induction l with
  | nil => intro s₁ s₂ _; rfl
  | cons a t ih =>
    intro s₁ s₂ hiff
    by_cases h : a ∈ s₁
    · rw [pdUniqueAux, if_pos h, pdUniqueAux, if_pos ((hiff a).mp h), ih s₁ s₂ hiff]
    · rw [pdUniqueAux, if_neg h, pdUniqueAux, if_neg (fun hc => h ((hiff a).mpr hc))]
      have hext : ∀ x, x ∈ a :: s₁ ↔ x ∈ a :: s₂ := by
        intro x
        rw [List.mem_cons, List.mem_cons, hiff x]
      rw [ih (a :: s₁) (a :: s₂) hext]

lemma keys_dictInsert {β : Type} (k : String) (v : β) :
    ∀ (l : List (String × β)),
      (dictInsert l k v).map Prod.fst =
        if k ∈ l.map Prod.fst then l.map Prod.fst else l.map Prod.fst ++ [k] := by
  intro l
  induction l with
  | nil => simp [dictInsert]
  | cons p t ih =>
    obtain ⟨a, b⟩ := p
    by_cases h : a = k
    · subst h; simp [dictInsert]
    · simp only [dictInsert, if_neg h, List.map_cons]
      by_cases h2 : k ∈ t.map Prod.fst
      · rw [ih, if_pos h2, if_pos (List.mem_cons_of_mem a h2)]
      · have hnc : ¬ k ∈ a :: t.map Prod.fst := by
          intro hc
          rcases List.mem_cons.mp hc with hq | hq
          · exact h hq.symm
          · exact h2 hq
        rw [ih, if_neg h2, if_neg hnc, List.cons_append]

lemma alookup_dictInsert {β : Type} (k k' : String) (v : β) :
    ∀ (l : List (String × β)),
      alookup k' (dictInsert l k v) = if k' = k then some v else alookup k' l := by
  intro l
  induction l with
  | nil =>
    by_cases h : k' = k
    · subst h; simp [dictInsert, alookup]
    · simp [dictInsert, alookup, h, Ne.symm h]
  | cons p t ih =>
    obtain ⟨a, b⟩ := p
    by_cases hak : a = k
    · subst hak
      by_cases h : k' = a
      · subst h; simp [dictInsert, alookup]
      · simp [dictInsert, alookup, h, Ne.symm h]
    · simp only [dictInsert, if_neg hak]
      by_cases h : a = k'
      · have hk'k : ¬ k' = k := fun hc => hak (h.trans hc)
        simp [alookup, h, hk'k]
      · simp [alookup, h, ih]

lemma keys_load_aux :
    ∀ (rows : List MappingRow) (acc : List (String × Config)),
      ((rows.foldl insertCfg acc).map Prod.fst) =
        acc.map Prod.fst ++ pdUniqueAux (acc.map Prod.fst) (rows.filterMap validTarget) := by
  intro rows
  induction rows with
  | nil => intro acc; simp [pdUniqueAux]
  | cons r t ih =>
    intro acc
    rw [List.foldl_cons, ih]
    cases hv : validTarget r with
    | none => simp [insertCfg, hv, List.filterMap_cons]
    | some tt =>
      simp only [insertCfg, hv, List.filterMap_cons]
      rw [keys_dictInsert]
      by_cases htt : tt ∈ acc.map Prod.fst
      · rw [if_pos htt, pdUniqueAux, if_pos htt]
      · rw [if_neg htt, pdUniqueAux, if_neg htt]
        have hcongr : pdUniqueAux (acc.map Prod.fst ++ [tt]) (t.filterMap validTarget)
            = pdUniqueAux (tt :: acc.map Prod.fst) (t.filterMap validTarget) := by
          apply pdUniqueAux_congr
          intro x
          simp only [List.mem_append, List.mem_cons, List.mem_singleton,
            List.not_mem_nil, or_false]
          tauto
        rw [hcongr, List.append_assoc, List.singleton_append]

lemma alookup_load_aux :
    ∀ (rows : List MappingRow) (acc : List (String × Config)) (tf : String),
      alookup tf (rows.foldl insertCfg acc) =
        (lastCompiled tf rows).orElse (fun _ => alookup tf acc) := by
  intro rows
  induction rows with
  | nil => intro acc tf; rfl
  | cons r rest ih =>
    intro acc tf
    rw [List.foldl_cons, ih]
    cases hlast : lastCompiled tf rest with
    | some c => simp [lastCompiled, hlast, Option.orElse]
    | none =>
      cases hv : validTarget r with
      | none => simp [insertCfg, hv, lastCompiled, hlast, Option.orElse]
      | some tt =>
        simp only [insertCfg, hv]
        rw [alookup_dictInsert]
        by_cases htf : tf = tt
        · subst htf; simp [lastCompiled, hlast, hv, Option.orElse]
        · have htf2 : ¬ tt = tf := fun hc => htf hc.symm
          simp [lastCompiled, hlast, hv, htf, htf2, Option.orElse]

/-- C9: after load_mapping_config the target field names are unique;
the dict key order is the first declaration order of the valid targets;
and the stored rule for each target is the compiled form of the last
configuration row naming that target. -/
theorem c9_duplicate_targets_last_wins : ∀ rows : List MappingRow,
    (((load_mapping_config rows).map Prod.fst).Nodup) ∧
    ((load_mapping_config rows).map Prod.fst = pdUnique (rows.filterMap validTarget)) ∧
    (∀ tf : String, alookup tf (load_mapping_config rows) = lastCompiled tf rows) := by
  intro rows
  have hkeys : (load_mapping_config rows).map Prod.fst = pdUnique (rows.filterMap validTarget) := by
    have h := keys_load_aux rows []
    simpa [load_mapping_config, pdUnique] using h
  refine ⟨?_, hkeys, ?_⟩
  · rw [hkeys]; exact pdUniqueAux_nodup _ []
  · intro tf
    have h2 := alookup_load_aux rows [] tf
    unfold load_mapping_config
    rw [h2]
    cases hl : lastCompiled tf rows with
    | none => rfl
    | some c => rfl

/-- C2 counterexample: the primary id column of dfC2 holds 1001 and a
null cell.  The claimed id set (specEntityIds, null values dropped) is
the singleton 1001, yet transform_data stringifies the null to nan,
keeps it, and emits two output records. -/
theorem c2_counterexample :
    specEntityIds dfC2 = ["1001"] ∧
    personIds dfC2 = ["1001", "nan"] ∧
    transform_data mapperC2 = Except.ok [[("f", Val.str "D")], [("f", Val.str "D")]] :=
  ⟨rfl, rfl, rfl⟩

/-- C2 amended: the processed entity ids are the distinct string forms
of the primary id column in first-seen order with duplicates collapsed,
null cells included as the string nan rather than dropped, and exactly
one output record is emitted per such id. -/
theorem c2_amended :
    ∀ (m : EnhancedDataMapper) (df : DataFrame),
      m.mapping_config ≠ [] → m.source_data ≠ [] →
      alookup "PA0002_Personal Data" m.source_data = some df →
      "PERNR" ∈ df.cols →
      ∃ recs, transform_data m = Except.ok recs ∧
        recs.length = (personIds df).length ∧
        (personIds df).Nodup ∧
        (∀ s, s ∈ personIds df ↔
          s ∈ df.rows.map (fun r => pyStr (rowGetD r "PERNR" Val.none))) ∧
        List.Sublist (personIds df)
          (df.rows.map (fun r => pyStr (rowGetD r "PERNR" Val.none))) := by
  intro m df h1 h2 h3 h4
  refine ⟨(personIds df).map (fun person_id =>
    m.mapping_config.map (fun p =>
      (p.1, get_value_from_source person_id p.2 m.source_data))), ?_, ?_, ?_, ?_, ?_⟩
  · simp [transform_data, h1, h2, h3, h4]
  · simp
  · exact pdUniqueAux_nodup _ []
  · intro s
    have h := mem_pdUniqueAux s (df.rows.map (fun r => pyStr (rowGetD r "PERNR" Val.none))) []
    simpa [personIds, pdUnique] using h
  · exact pdUniqueAux_sublist _ []

/-- C2 witness: the amended statement instantiated at the mapper whose
primary table holds 1001 and a null id cell. -/
theorem c2_amended_witness :
    ∃ recs, transform_data mapperC2 = Except.ok recs ∧
      recs.length = (personIds dfC2).length ∧
      (personIds dfC2).Nodup ∧
      (∀ s, s ∈ personIds dfC2 ↔
        s ∈ dfC2.rows.map (fun r => pyStr (rowGetD r "PERNR" Val.none))) ∧
      List.Sublist (personIds dfC2)
        (dfC2.rows.map (fun r => pyStr (rowGetD r "PERNR" Val.none))) :=
  c2_amended mapperC2 dfC2 (by decide) (by decide) rfl (by decide)

/-- C6 counterexample: with every constituent field absent from the
entity row, the concatenation branch returns the empty string, not
None as the claim states. -/
theorem c6_counterexample :
    apply_transformations (Val.str "x") "DISPLAYNAME" "concatenate VORNA + NACHN" [] []
      = Val.str "" ∧
    Val.str "" ≠ Val.none :=
  ⟨rfl, by decide⟩

/-- C6 amended: for a non-null, non-empty raw value whose field name
and notes trigger none of the earlier branches, the concatenation rule
reads VORNA and NACHN from the entity primary row, coercing absent
fields to the empty string, joins with a single space and strips the
ends; when every constituent field is absent the result is the empty
string, not None. -/
theorem c6_amended :
    ∀ (v : Val) (fn notes : String) (row : Row) (sd : List (String × DataFrame)),
      v ≠ Val.none → v ≠ Val.str "" →
      strContainsSub (strLower fn) "gender" = false → strContainsSub fn "GESCH" = false →
      strContainsSub (strLower notes) "date" = false → strContainsSub fn "GBDAT" = false →
      strContainsSub fn "BEGDA" = false →
      strContainsSub (strLower notes) "marital" = false → strContainsSub fn "FAMST" = false →
      strContainsSub notes "concatenate VORNA + NACHN" = true →
      apply_transformations v fn notes row sd =
        Val.str (strStrip (pyStr (rowGetD row "VORNA" (Val.str "")) ++ " "
          ++ pyStr (rowGetD row "NACHN" (Val.str "")))) := by
  intro v fn notes row sd h0 h0' h1 h2 h3 h4 h5 h6 h7 h8
  simp [apply_transformations, h0, h0', h1, h2, h3, h4, h5, h6, h7, h8]

/-- C6 witness: the amended statement at a row holding Jane and Doe,
which concatenates to Jane Doe. -/
theorem c6_amended_witness :
    apply_transformations (Val.str "x") "DISPLAY" "concatenate VORNA + NACHN"
      [("VORNA", Val.str "Jane"), ("NACHN", Val.str "Doe")] [] = Val.str "Jane Doe" :=
  (c6_amended (Val.str "x") "DISPLAY" "concatenate VORNA + NACHN"
    [("VORNA", Val.str "Jane"), ("NACHN", Val.str "Doe")] []
    (by decide) (by decide) rfl rfl rfl rfl rfl rfl rfl rfl).trans rfl

/-- C7 counterexample: with a concat rule and an empty raw value the
pipeline short-circuits to None, although the same rule on a non-empty
raw value yields Jane Doe; so the concat result does depend on the raw
value of the rule, contrary to the claim. -/
theorem c7_counterexample :
    apply_transformations (Val.str "") "DISPLAY" "concatenate VORNA + NACHN"
      [("VORNA", Val.str "Jane"), ("NACHN", Val.str "Doe")] [] = Val.none ∧
    apply_transformations (Val.str "x") "DISPLAY" "concatenate VORNA + NACHN"
      [("VORNA", Val.str "Jane"), ("NACHN", Val.str "Doe")] [] = Val.str "Jane Doe" ∧
    Val.none ≠ Val.str "Jane Doe" :=
  ⟨rfl, rfl, by decide⟩

/-- C7 amended: a null or empty raw value short-circuits the
transformation pipeline to None before any operation, for every rule
including concat rules; no branch is exempt. -/
theorem c7_amended :
    ∀ (v : Val) (fn notes : String) (row : Row) (sd : List (String × DataFrame)),
      v = Val.none ∨ v = Val.str "" →
      apply_transformations v fn notes row sd = Val.none := by
  intro v fn notes row sd h
  unfold apply_transformations
  rw [if_pos h]

/-- C7 witness: the amended statement at an empty raw value under a
concat rule. -/
theorem c7_amended_witness :
    apply_transformations (Val.str "") "DISPLAY2" "concatenate VORNA + NACHN" [] []
      = Val.none :=
  c7_amended (Val.str "") "DISPLAY2" "concatenate VORNA + NACHN" [] [] (Or.inr rfl)

/-- C10 counterexample: with the primary table loaded but lacking the
PERNR column, the pass fails with the raw KeyError escaping from the
pandas column subscript (the keyError constructor), not with one of the
deliberate configuration error messages (the valueError constructor),
contradicting the claim that the failure is never a raw internal
exception. -/
theorem c10_counterexample :
    transform_data mapperC10 = Except.error (MapError.keyError "PERNR") ∧
    MapError.keyError "PERNR" ≠
      MapError.valueError "PA0002_Personal Data is required as the main data source" :=
  ⟨rfl, by decide⟩

/-- C10 amended: with configuration and source data loaded, a missing
primary table fails with the deliberate error naming it, and a primary
table lacking the id column fails with the raw KeyError naming the
column; both failures occur before any output record exists, so nothing
is partially emitted. -/
theorem c10_amended :
    ∀ (m : EnhancedDataMapper),
      m.mapping_config ≠ [] → m.source_data ≠ [] →
      (alookup "PA0002_Personal Data" m.source_data = Option.none →
        transform_data m = Except.error (MapError.valueError
          "PA0002_Personal Data is required as the main data source")) ∧
      (∀ df, alookup "PA0002_Personal Data" m.source_data = some df →
        ¬ "PERNR" ∈ df.cols →
        transform_data m = Except.error (MapError.keyError "PERNR")) := by
  intro m h1 h2
  constructor
  · intro h3; simp [transform_data, h1, h2, h3]
  · intro df h3 h4; simp [transform_data, h1, h2, h3, h4]

/-- C10 witness: the amended statement at a mapper without the primary
table and at a mapper whose primary table lacks PERNR. -/
theorem c10_amended_witness :
    transform_data mapperC10b = Except.error (MapError.valueError
      "PA0002_Personal Data is required as the main data source") ∧
    transform_data mapperC10 = Except.error (MapError.keyError "PERNR") :=
  ⟨(c10_amended mapperC10b (by decide) (by decide)).1 rfl,
   (c10_amended mapperC10 (by decide) (by decide)).2 dfNoPernr rfl (by decide)⟩

/-- C1 counterexample: for the email rule on PA0105 whose resolved raw
communication value is the empty string, transform_data writes the
empty string unchanged, while the transformation pipeline applied to
the resolved raw value yields None; so the written value is not always
resolve followed by apply. -/
theorem c1_counterexample :
    transform_data mapperC1 = Except.ok [[("email", Val.str "")]] ∧
    resolveRaw "1001" cfgC1 sdC1 = Val.str "" ∧
    apply_transformations (resolveRaw "1001" cfgC1 sdC1) cfgC1.technical_field cfgC1.notes
      (primary_row "1001" sdC1) sdC1 = Val.none ∧
    Val.str "" ≠ Val.none :=
  ⟨rfl, rfl, rfl, by decide⟩

/-- C1 amended: transform_data emits, per entity id in first-seen order
and per compiled rule in declaration order, the value of
get_value_from_source under the target field name; and for a PA0002
rule whose entity has a row in the loaded primary table, that value is
the transformation pipeline applied to the resolved raw cell.  For the
other source tables the resolved value or the default is written
without the pipeline. -/
theorem c1_amended :
    (∀ (m : EnhancedDataMapper) (df : DataFrame),
      m.mapping_config ≠ [] → m.source_data ≠ [] →
      alookup "PA0002_Personal Data" m.source_data = some df →
      "PERNR" ∈ df.cols →
      transform_data m = Except.ok ((personIds df).map (fun person_id =>
        m.mapping_config.map (fun p =>
          (p.1, get_value_from_source person_id p.2 m.source_data))))) ∧
    (∀ (person_id : String) (config : Config) (source_data : List (String × DataFrame))
        (df : DataFrame) (pr : Row) (rest : List Row),
      config.source_table = "PA0002" →
      alookup "PA0002_Personal Data" source_data = some df →
      pernrFilter df person_id = pr :: rest →
      get_value_from_source person_id config source_data =
        apply_transformations (resolveRaw person_id config source_data)
          config.technical_field config.notes pr source_data) := by
  constructor
  · intro m df h1 h2 h3 h4
    simp [transform_data, h1, h2, h3, h4]
  · intro person_id config source_data df pr rest hst hdf hfil
    simp [get_value_from_source, get_pa0002_value, resolveRaw, hst, hdf, hfil]

/-- C1 witness: the amended statement at a loaded mapper with one
gender rule, and at the gender rule with the primary row of employee
1001. -/
theorem c1_amended_witness :
    transform_data (EnhancedDataMapper.mk [("gender", cfgGender)] sdA) =
      Except.ok ((personIds dfPa0002A).map (fun person_id =>
        ([("gender", cfgGender)] : List (String × Config)).map (fun p =>
          (p.1, get_value_from_source person_id p.2 sdA)))) ∧
    get_value_from_source "1001" cfgGender sdA =
      apply_transformations (resolveRaw "1001" cfgGender sdA) cfgGender.technical_field
        cfgGender.notes rowA sdA :=
  ⟨c1_amended.1 (EnhancedDataMapper.mk [("gender", cfgGender)] sdA) dfPa0002A
      (by decide) (by decide) rfl (by decide),
   c1_amended.2 "1001" cfgGender sdA dfPa0002A rowA [] rfl rfl rfl⟩

/-- C3 counterexample: the notes request no subtype, employee 1001 has
communication rows, yet the lookup returns the default D rather than
the first row value 555 that the claim promises. -/
theorem c3_counterexample :
    get_pa0105_value "1001" "USRID_LONG" "" (Val.str "D") sdA = Val.str "D" ∧
    specFirstCommValue "1001" (Val.str "D") sdA = Val.str "555" ∧
    Val.str "D" ≠ Val.str "555" :=
  ⟨rfl, rfl, by decide⟩

/-- C3 amended: when the notes select no subtype the communication
lookup returns the default, never a row; when the email or phone
subtype is selected, the first row in input order matching the subtype
filter supplies the communication value, the default standing in when
no row matches. -/
theorem c3_amended :
    (∀ (person_id tf notes : String) (dv : Val) (sd : List (String × DataFrame)),
      emailNotes notes = false → phoneNotes notes = false →
      get_pa0105_value person_id tf notes dv sd = dv) ∧
    (∀ (person_id tf notes : String) (dv : Val) (sd : List (String × DataFrame))
        (df : DataFrame) (pr : Row) (prs : List Row),
      alookup "PA0105_Communication" sd = some df →
      pernrFilter df person_id = pr :: prs →
      emailNotes notes = true →
      get_pa0105_value person_id tf notes dv sd =
        (match emailRowsOf (pr :: prs) with
         | e :: _ => rowGetD e "USRID_LONG" dv
         | [] => dv)) ∧
    (∀ (person_id tf notes : String) (dv : Val) (sd : List (String × DataFrame))
        (df : DataFrame) (pr : Row) (prs : List Row),
      alookup "PA0105_Communication" sd = some df →
      pernrFilter df person_id = pr :: prs →
      emailNotes notes = false → phoneNotes notes = true →
      get_pa0105_value person_id tf notes dv sd =
        (match phoneRowsOf (pr :: prs) with
         | p :: _ => rowGetD p "USRID_LONG" dv
         | [] => dv)) := by
  refine ⟨?_, ?_, ?_⟩
  · intro person_id tf notes dv sd he hp
    cases halo : alookup "PA0105_Communication" sd with
    | none => simp [get_pa0105_value, halo]
    | some df =>
      cases hfil : pernrFilter df person_id with
      | nil => simp [get_pa0105_value, halo, hfil]
      | cons pr prs => simp [get_pa0105_value, halo, hfil, he, hp]
  · intro person_id tf notes dv sd df pr prs halo hfil he
    cases hrows : emailRowsOf (pr :: prs) with
    | nil => simp [get_pa0105_value, halo, hfil, he, hrows]
    | cons e es => simp [get_pa0105_value, halo, hfil, he, hrows]
  · intro person_id tf notes dv sd df pr prs halo hfil he hp
    cases hrows : phoneRowsOf (pr :: prs) with
    | nil => simp [get_pa0105_value, halo, hfil, he, hp, hrows]
    | cons p ps => simp [get_pa0105_value, halo, hfil, he, hp, hrows]

/-- C3 witness: the amended statement at notes selecting no subtype and
at notes selecting the email subtype over the two communication rows of
employee 1001. -/
theorem c3_amended_witness :
    get_pa0105_value "1001" "USRID_LONG" "x" (Val.str "D") sdA = Val.str "D" ∧
    get_pa0105_value "1001" "USRID_LONG" "SUBTY=0010" (Val.str "D") sdA =
      (match emailRowsOf (rowPhoneA :: [rowEmailA]) with
       | e :: _ => rowGetD e "USRID_LONG" (Val.str "D")
       | [] => Val.str "D") :=
  ⟨c3_amended.1 "1001" "USRID_LONG" "x" (Val.str "D") sdA rfl rfl,
   c3_amended.2.1 "1001" "USRID_LONG" "SUBTY=0010" (Val.str "D") sdA dfPa0105A
     rowPhoneA [rowEmailA] rfl rfl rfl⟩

/-- C4 counterexample: the reference pa0002 matches the loaded table
name PA0002_Personal Data under the claimed case-insensitive substring
containment, yet the source treats it as no match and returns the
default D, while the exact spelling PA0002 resolves the value Jane. -/
theorem c4_counterexample :
    specTableMatch "pa0002" "PA0002_Personal Data" = true ∧
    get_value_from_source "1001" cfgC4 sdA = Val.str "D" ∧
    get_value_from_source "1001" { cfgC4 with source_table := "PA0002" } sdA = Val.str "Jane" ∧
    Val.str "D" ≠ Val.str "Jane" :=
  ⟨rfl, rfl, rfl, by decide⟩

/-- C4 amended: the source table reference of a rule is compared for
exact equality against the six fixed constants PA0002, PA0105, PA0006,
PA0001, PA0000 and Custom, not against loaded table names; when it
equals none of them, resolution returns the default of the rule if
truthy and otherwise null, and no exception is raised. -/
theorem c4_amended :
    ∀ (person_id : String) (config : Config) (source_data : List (String × DataFrame)),
      ¬ config.source_table ∈
        (["PA0002", "PA0105", "PA0006", "PA0001", "PA0000", "Custom"] : List String) →
      get_value_from_source person_id config source_data =
        (if valTruthy config.default_value then config.default_value else Val.none) := by
  intro person_id config source_data h
  have h1 : ¬ config.source_table = "PA0002" := fun hc => h (by rw [hc]; decide)
  have h2 : ¬ config.source_table = "PA0105" := fun hc => h (by rw [hc]; decide)
  have h3 : ¬ config.source_table = "PA0006" := fun hc => h (by rw [hc]; decide)
  have h4 : ¬ config.source_table = "PA0001" := fun hc => h (by rw [hc]; decide)
  have h5 : ¬ config.source_table = "PA0000" := fun hc => h (by rw [hc]; decide)
  have h6 : ¬ config.source_table = "Custom" := fun hc => h (by rw [hc]; decide)
  simp [get_value_from_source, h1, h2, h3, h4, h5, h6]

/-- C4 witness: the amended statement at the unmatched reference PA9999
with an empty default, which resolves to null. -/
theorem c4_amended_witness :
    get_value_from_source "1001" cfgC4w sdA =
      (if valTruthy cfgC4w.default_value then cfgC4w.default_value else Val.none) :=
  c4_amended "1001" cfgC4w sdA (by decide)

/-- C5 counterexample: the claimed regex extraction reads subtype 10
from both SUBTY=10 and SUBTY=0010, but the source recognizes only the
exact spelling SUBTY=0010: with SUBTY=10 it returns the default D
instead of the email row value. -/
theorem c5_counterexample :
    specSubtypeOfNotes "SUBTY=10" = some "10" ∧
    specSubtypeOfNotes "SUBTY=0010" = some "10" ∧
    get_pa0105_value "1001" "USRID_LONG" "SUBTY=10" (Val.str "D") sdA = Val.str "D" ∧
    get_pa0105_value "1001" "USRID_LONG" "SUBTY=0010" (Val.str "D") sdA = Val.str "a@b" ∧
    Val.str "D" ≠ Val.str "a@b" :=
  ⟨rfl, rfl, rfl, rfl, by decide⟩

/-- C5 amended: subtype disambiguation depends on the notes text only
through two fixed checks, the keyword email case-insensitively or the
exact substring SUBTY=0010 for the email rows, and the keyword phone or
the exact substring SUBTY=0020 for the phone rows; there is no general
SUBTY regex, no leading zero normalization and no case-insensitive
matching of the SUBTY markers. -/
theorem c5_amended :
    (∀ (person_id tf na nb : String) (dv : Val) (sd : List (String × DataFrame)),
      emailNotes na = emailNotes nb → phoneNotes na = phoneNotes nb →
      get_pa0105_value person_id tf na dv sd = get_pa0105_value person_id tf nb dv sd) ∧
    emailNotes "SUBTY=0010" = true ∧
    emailNotes "Email address" = true ∧
    emailNotes "SUBTY=10" = false ∧
    emailNotes "subty=0010" = false ∧
    phoneNotes "SUBTY=0020" = true ∧
    phoneNotes "PHONE number" = true ∧
    phoneNotes "SUBTY=20" = false := by
  refine ⟨?_, rfl, rfl, rfl, rfl, rfl, rfl, rfl⟩
  intro person_id tf na nb dv sd he hp
  cases halo : alookup "PA0105_Communication" sd with
  | none => simp [get_pa0105_value, halo]
  | some df =>
    cases hfil : pernrFilter df person_id with
    | nil => simp [get_pa0105_value, halo, hfil]
    | cons pr prs =>
      simp only [get_pa0105_value, halo, hfil]
      rw [he, hp]

/-- C5 witness: the amended statement identifying the behavior of the
keyword spelling email with the marker spelling SUBTY=0010. -/
theorem c5_amended_witness :
    get_pa0105_value "1001" "USRID_LONG" "email" (Val.str "D") sdA =
      get_pa0105_value "1001" "USRID_LONG" "SUBTY=0010" (Val.str "D") sdA :=
  c5_amended.1 "1001" "USRID_LONG" "email" "SUBTY=0010" (Val.str "D") sdA rfl rfl

lemma format_date_str_not8 (s : String)
    (h : ¬ (s.length = 8 ∧ s.toList.all Char.isDigit = true)) :
    format_date (Val.str s) = Val.str s := by
  simp only [format_date, pyStr]
  rw [if_neg h]

lemma format_date_idem (s : String) :
    format_date (format_date (Val.str s)) = format_date (Val.str s) := by
  by_cases h : s.length = 8 ∧ s.toList.all Char.isDigit = true
  · have hfd : format_date (Val.str s) =
        Val.str (String.mk (s.toList.take 4 ++ '-' ::
          ((s.toList.drop 4).take 2 ++ '-' :: s.toList.drop 6))) := by
      simp only [format_date, pyStr]
      rw [if_pos h]
    rw [hfd]
    apply format_date_str_not8
    rintro ⟨-, hall⟩
    have hmem : '-' ∈ (String.mk (s.toList.take 4 ++ '-' ::
        ((s.toList.drop 4).take 2 ++ '-' :: s.toList.drop 6))).toList := by
      show '-' ∈ s.toList.take 4 ++ '-' ::
        ((s.toList.drop 4).take 2 ++ '-' :: s.toList.drop 6)
      exact List.mem_append.mpr (Or.inr (List.mem_cons_self _ _))
    have hdig := List.all_eq_true.mp hall '-' hmem
    exact absurd hdig (by decide)
  · rw [format_date_str_not8 s h, format_date_str_not8 s h]

/-- C8 amended: the date transform returns None on a null value, slices
the eight digit string form into YYYY-MM-DD, and otherwise returns the
string form of its input; it therefore acts on the string rendering of
the value, so string inputs that are not eight digits pass through
unchanged and the transform is idempotent on strings, while non-string
values are first converted to their string form.  The function is total
and never raises. -/
theorem c8_amended :
    (format_date Val.none = Val.none) ∧
    (format_date (Val.str "19850613") = Val.str "1985-06-13") ∧
    (∀ v : Val, v ≠ Val.none → format_date v = format_date (Val.str (pyStr v))) ∧
    (∀ s : String, ¬ (s.length = 8 ∧ s.toList.all Char.isDigit = true) →
      format_date (Val.str s) = Val.str s) ∧
    (∀ s : String, format_date (format_date (Val.str s)) = format_date (Val.str s)) := by
  refine ⟨rfl, rfl, ?_, format_date_str_not8, format_date_idem⟩
  intro v hv
  cases v with
  | none => exact absurd rfl hv
  | str s => rfl
  | nat n => rfl

/-- C8 witness: the amended statement at the already formatted string
and at a numeric input. -/
theorem c8_amended_witness :
    format_date (Val.str "1985-06-13") = Val.str "1985-06-13" ∧
    format_date (Val.nat 19850613) = format_date (Val.str (pyStr (Val.nat 19850613))) :=
  ⟨c8_amended.2.2.2.1 "1985-06-13" (by decide),
   c8_amended.2.2.1 (Val.nat 19850613) (by decide)⟩

/-- C8 counterexample: a numeric cell is not an eight character string,
so the claim requires it to pass through unchanged, but the source
renders it through str() first: the number 19850613 becomes the string
1985-06-13 and the number 123 becomes the string 123. -/
theorem c8_counterexample :
    format_date (Val.nat 19850613) = Val.str "1985-06-13" ∧
    format_date (Val.nat 123) = Val.str "123" ∧
    Val.str "1985-06-13" ≠ Val.nat 19850613 ∧
    Val.str "123" ≠ Val.nat 123 :=
  ⟨rfl, rfl, by decide, by decide⟩
